import Mathlib

/-!
Verification development for the WorkSpace Manager desktop-session tracker.

The definitions below are a shallow embedding of the repository's
persistence layer (`db.py`), daemon (`daemon.py`), window-capture engine
(`snapshot.py`), restore engine (`restore.py`) and the earlier-architecture
daemon/database (`src/core/daemon.py`, `src/db/database.py`).
SQLite tables become Lean structures, dictionaries become association
lists or functions, and the OS (win32 / pyvda) becomes an explicit
environment record supplied as a parameter.
-/

namespace WSM

/-- Session status enum: the `status` column of the `sessions` table
(`active | paused | idle`). -/
inductive Status
  | active
  | paused
  | idle
deriving DecidableEq, Repr

/-- One captured window row (`windows` table / snapshot dict
`{hwnd, title, exe_path, exe_name, pid}`). -/
structure Window where
  hwnd : Nat
  title : String
  exe_path : String
  exe_name : String
  pid : Nat
deriving DecidableEq, Repr

/-- One captured browser tab row (`chrome_tabs` table). -/
structure Tab where
  tab_id : Nat
  title : String
  url : String
deriving DecidableEq, Repr

/-- One session row of the `sessions` table (v4 schema in `db.py`),
restricted to the fields the daemon logic reads and writes. -/
structure Session where
  id : Nat
  name : String
  status : Status
  virtual_desktop_id : Option String
  total_seconds : Nat
deriving DecidableEq, Repr

/-- One append-only row of the `snapshots` table. -/
structure SnapshotRec where
  session_id : Nat
  window_count : Nat
  tab_count : Nat
deriving DecidableEq, Repr

/-- The persistent store (`db.py`): the four tables.  Per-session window
and tab rows are modelled as functions from session id to the row list
for that session. -/
structure Store where
  sessions : List Session
  windows : Nat → List Window
  tabs : Nat → List Tab
  snapshots : List SnapshotRec
  nextId : Nat

/-- `db.create_session`: plain INSERT with status `'active'`; returns the
new autoincrement row id. -/
def create_session (st : Store) (name : String) (did : Option String) :
    Store × Nat :=
  let sid := st.nextId
  ({ st with
      sessions := st.sessions ++ [⟨sid, name, Status.active, did, 0⟩],
      nextId := sid + 1 }, sid)

/-- `db.get_session`: SELECT by primary key. -/
def get_session (st : Store) (sid : Nat) : Option Session :=
  st.sessions.find? (fun s => s.id = sid)

/-- `db.update_session_status`. -/
def update_session_status (st : Store) (sid : Nat) (stt : Status) : Store :=
  { st with
      sessions := st.sessions.map
        (fun s => if s.id = sid then { s with status := stt } else s) }

/-- `db.add_session_time`: `total_seconds = total_seconds + ?`. -/
def add_session_time (st : Store) (sid : Nat) (secs : Nat) : Store :=
  { st with
      sessions := st.sessions.map
        (fun s => if s.id = sid then
          { s with total_seconds := s.total_seconds + secs } else s) }

/-- `db.save_windows`: delete-then-insert replacement of the session's
window rows. -/
def save_windows (st : Store) (sid : Nat) (ws : List Window) : Store :=
  { st with windows := fun k => if k = sid then ws else st.windows k }

/-- `db.get_windows`. -/
def get_windows (st : Store) (sid : Nat) : List Window :=
  st.windows sid

/-- `db.save_chrome_tabs`: delete-then-insert replacement of the
session's tab rows. -/
def save_chrome_tabs (st : Store) (sid : Nat) (ts : List Tab) : Store :=
  { st with tabs := fun k => if k = sid then ts else st.tabs k }

/-- `db.get_chrome_tabs`. -/
def get_chrome_tabs (st : Store) (sid : Nat) : List Tab :=
  st.tabs sid

/-- `db.save_snapshot`: append one `snapshots` row recording the window
and tab counts, then replace the session's window rows and tab rows. -/
def save_snapshot (st : Store) (sid : Nat) (ws : List Window)
    (ts : List Tab) : Store :=
  let st1 := { st with snapshots := st.snapshots ++ [⟨sid, ws.length, ts.length⟩] }
  save_chrome_tabs (save_windows st1 sid ws) sid ts

/-- Dictionary lookup for string-keyed maps (`self._session_map`). -/
def lookupMap (m : List (String × Nat)) (did : String) : Option Nat :=
  (m.find? (fun p => p.1 = did)).map (fun p => p.2)

/-- Dictionary assignment `m[did] = sid` for a string-keyed map. -/
def insertMap (m : List (String × Nat)) (did : String) (sid : Nat) :
    List (String × Nat) :=
  if m.any (fun p => p.1 = did) then
    m.map (fun p => if p.1 = did then (did, sid) else p)
  else m ++ [(did, sid)]

/-- Dictionary assignment for the nat-keyed `self._last_snap` map. -/
def insertSnapTime (m : List (Nat × Nat)) (sid : Nat) (t : Nat) :
    List (Nat × Nat) :=
  if m.any (fun p => p.1 = sid) then
    m.map (fun p => if p.1 = sid then (sid, t) else p)
  else m ++ [(sid, t)]

/-- Lookup for the `self._last_snap` map. -/
def lookupSnapTime (m : List (Nat × Nat)) (sid : Nat) : Option Nat :=
  (m.find? (fun p => p.1 = sid)).map (fun p => p.2)

/-- Python `str.lower()`, character-wise (the code applies it to ASCII
executable names). -/
def pyLower (s : String) : String :=
  String.mk (s.data.map Char.toLower)

/-- Qt signals the daemon can emit
(`new_desktop_detected`, `snapshot_saved`, `chrome_tabs_received`). -/
inductive Event
  | newDesktopDetected (did : String)
  | snapshotSaved (sid : Nat)
  | chromeTabsReceived (sid : Nat)
deriving DecidableEq, Repr

/-- In-memory daemon state (`WorkSpaceDaemon` in `daemon.py`):
previous poll's desktop count and id set, the active desktop id, the
desktop-id → session-id map, the suppress counter, and the per-session
last-snapshot timestamps. -/
structure Daemon where
  prevCount : Nat
  prevIds : List String
  activeId : Option String
  sessionMap : List (String × Nat)
  suppressCount : Nat
  lastSnap : List (Nat × Nat)
deriving Repr

/-- `WorkSpaceDaemon._save_snapshot_safe`: fetch the session's stored
tabs; if the window list is empty while stored windows exist, keep the
stored data and only record the snapshot timestamp; otherwise write the
snapshot (replacing windows and tabs) and emit `snapshot_saved`. -/
def save_snapshot_safe (st : Store) (d : Daemon) (sid : Nat)
    (ws : List Window) (now : Nat) : Store × Daemon × List Event :=
  let ts := get_chrome_tabs st sid
  if ws = [] ∧ get_windows st sid ≠ [] then
    (st, { d with lastSnap := insertSnapTime d.lastSnap sid now }, [])
  else
    (save_snapshot st sid ws ts,
     { d with lastSnap := insertSnapTime d.lastSnap sid now },
     [Event.snapshotSaved sid])

/-- `WorkSpaceDaemon._do_snapshot_for`: take a global capture
(modelled as the `allWindows` argument), pick this desktop's windows and
save them through the safe path. -/
def do_snapshot_for (st : Store) (d : Daemon) (sid : Nat) (did : String)
    (allWindows : String → List Window) (now : Nat) :
    Store × Daemon × List Event :=
  save_snapshot_safe st d sid (allWindows did) now

/-- `WorkSpaceDaemon._salvage_on_close`: after the session's desktop is
removed, match the windows now present on the current desktop against
the executable names of the session's previously stored windows; if any
match, they replace the stored windows, otherwise the previous window
list is kept.  `getOrEmpty` is Python's `all_windows.get(desktop_id, [])`
with a possibly-`None` key. -/
def getOrEmpty (allWindows : String → List Window)
    (currentDesktop : Option String) : List Window :=
  match currentDesktop with
  | none => []
  | some c => allWindows c

/-- `WorkSpaceDaemon._salvage_on_close` (continued doc above). -/
def salvage_on_close (st : Store) (sid : Nat)
    (allWindows : String → List Window) (currentDesktop : Option String) :
    Store :=
  let prev := get_windows st sid
  if prev = [] then st
  else
    let knownExes : List String :=
      (prev.filter (fun w => w.exe_name ≠ "")).map (fun w => pyLower w.exe_name)
    if knownExes = [] then st
    else
      let currentWindows := getOrEmpty allWindows currentDesktop
      let matched :=
        currentWindows.filter (fun w => pyLower w.exe_name ∈ knownExes)
      if matched = [] then st
      else save_snapshot st sid matched (get_chrome_tabs st sid)

/-- `WorkSpaceDaemon._poll`: one 500 ms topology tick.  The current
desktop count, id set and active desktop are the poll's OS readings;
`allWindows` stands for `snapshot_all_desktops()` should salvage need a
fresh capture.  Returns the updated store, daemon state and the list of
emitted events. -/
def poll (st : Store) (d : Daemon) (now : Nat) (currentCount : Nat)
    (currentIds : List String) (currentActive : Option String)
    (allWindows : String → List Window) : Store × Daemon × List Event :=
  if d.prevCount < currentCount then
    -- new desktop(s)
    let newIds := currentIds.filter (fun i => i ∉ d.prevIds)
    let d1 := { d with activeId := currentActive }
    if 0 < d1.suppressCount then
      (st, { d1 with
              suppressCount := d1.suppressCount - 1,
              prevCount := currentCount, prevIds := currentIds }, [])
    else
      (st, { d1 with prevCount := currentCount, prevIds := currentIds },
       newIds.map (fun i => Event.newDesktopDetected i))
  else if currentCount < d.prevCount then
    -- desktop(s) removed
    let removedIds := d.prevIds.filter (fun i => i ∉ currentIds)
    let r := removedIds.foldl
      (fun (acc : Store × Daemon) did =>
        match lookupMap d.sessionMap did with
        | some sid =>
            let s1 := salvage_on_close acc.1 sid allWindows currentActive
            let s2 := update_session_status s1 sid Status.idle
            let d2 :=
              if acc.2.activeId = some did then
                { acc.2 with activeId := currentActive }
              else acc.2
            (s2, d2)
        | none => acc)
      (st, d)
    (r.1, { r.2 with prevCount := currentCount, prevIds := currentIds }, [])
  else
    -- possible desktop switch
    match currentActive with
    | some ca =>
        if some ca ≠ d.activeId then
          let r1 : Store × Daemon × List Event :=
            match d.activeId with
            | some oldId =>
                match lookupMap d.sessionMap oldId with
                | some oldSid =>
                    let r := do_snapshot_for st d oldSid oldId allWindows now
                    (update_session_status r.1 oldSid Status.paused,
                     r.2.1, r.2.2)
                | none => (st, d, [])
            | none => (st, d, [])
          let st2 :=
            match lookupMap d.sessionMap ca with
            | some newSid => update_session_status r1.1 newSid Status.active
            | none => r1.1
          (st2, { r1.2.1 with
                   activeId := some ca,
                   prevCount := currentCount, prevIds := currentIds },
           r1.2.2)
        else
          (st, { d with prevCount := currentCount, prevIds := currentIds }, [])
    | none =>
        (st, { d with prevCount := currentCount, prevIds := currentIds }, [])

/-- `WorkSpaceDaemon.suppress_next_new_desktop`. -/
def suppress_next_new_desktop (d : Daemon) : Daemon :=
  { d with suppressCount := d.suppressCount + 1 }

/-- `WorkSpaceDaemon.receive_chrome_tabs`: unconditionally replace the
session's stored tabs and emit `chrome_tabs_received`. -/
def receive_chrome_tabs (st : Store) (sid : Nat) (ts : List Tab) :
    Store × List Event :=
  (save_chrome_tabs st sid ts, [Event.chromeTabsReceived sid])

/-- `WorkSpaceDaemon.register_session`: bind the desktop to the session
and mark it active (the delayed first snapshot is a later, separate
snapshot operation). -/
def register_session (st : Store) (d : Daemon) (sid : Nat) (did : String) :
    Store × Daemon :=
  (update_session_status st sid Status.active,
   { d with sessionMap := insertMap d.sessionMap did sid })

/-- One iteration of `WorkSpaceDaemon._tick_time`'s loop: add 60
seconds to the mapped session when its status is `active`. -/
def tick_step (acc : Store) (p : String × Nat) : Store :=
  match get_session acc p.2 with
  | some s =>
      if s.status = Status.active then add_session_time acc p.2 60 else acc
  | none => acc

/-- `WorkSpaceDaemon._tick_time`: every 60 s, add 60 seconds to each
mapped session whose status is `active`. -/
def tick_time (st : Store) (d : Daemon) : Store :=
  d.sessionMap.foldl tick_step st

/-- `WorkSpaceDaemon._scan_all_desktops_on_startup`: for each existing
desktop, refresh or auto-create its session and snapshot it; mark
sessions of vanished desktops idle; reset the poll baselines. -/
def scan_startup (st : Store) (d : Daemon) (allIds : List String)
    (currentId : Option String) (allWindows : String → List Window)
    (deskName : String → String) : Store × Daemon :=
  let r1 := allIds.foldl
    (fun (acc : Store × Daemon) did =>
      let ws := allWindows did
      match lookupMap acc.2.sessionMap did with
      | some sid =>
          let stt := if some did = currentId then Status.active else Status.paused
          let s1 := update_session_status acc.1 sid stt
          if ws ≠ [] then
            (save_snapshot s1 sid ws (get_chrome_tabs s1 sid), acc.2)
          else (s1, acc.2)
      | none =>
          if ws ≠ [] then
            let c := create_session acc.1 (deskName did) (some did)
            let d1 := { acc.2 with sessionMap := insertMap acc.2.sessionMap did c.2 }
            let stt := if some did = currentId then Status.active else Status.paused
            let s1 := update_session_status c.1 c.2 stt
            (save_snapshot s1 c.2 ws (get_chrome_tabs s1 c.2), d1)
          else acc)
    (st, d)
  let r2 := r1.2.sessionMap.foldl
    (fun (acc : Store) p =>
      if p.1 ∉ allIds then update_session_status acc p.2 Status.idle else acc)
    r1.1
  (r2, { r1.2 with
          prevIds := allIds, prevCount := allIds.length, activeId := currentId })

/-- The database effect of `restore.restore_session`: mark the session
active and, when a fresh desktop was created, rebind its desktop id
(launching apps is an external effect with no store footprint). -/
def restore_session_db (st : Store) (sid : Nat) (newDesk : Option String) :
    Store :=
  let s1 := update_session_status st sid Status.active
  match newDesk with
  | some did =>
      { s1 with
          sessions := s1.sessions.map
            (fun s => if s.id = sid then
              { s with virtual_desktop_id := some did } else s) }
  | none => s1

/-- `main.py _on_session_named`: the user names a new desktop, a session
row is inserted (`db.create_session`) and registered with the daemon
(`register_session`). -/
def on_session_named (st : Store) (d : Daemon) (name : String)
    (did : String) : Store × Daemon :=
  let c := create_session st name (some did)
  register_session c.1 d c.2 did

/-- A database with no rows (fresh install). -/
def emptyStore : Store :=
  { sessions := [], windows := fun _ => [], tabs := fun _ => [],
    snapshots := [], nextId := 1 }

/-- `WorkSpaceDaemon._load_session_map`: rebuild the desktop → session
map from stored active/paused sessions. -/
def load_session_map (st : Store) : List (String × Nat) :=
  st.sessions.foldl
    (fun m s =>
      match s.virtual_desktop_id with
      | some did =>
          if s.status = Status.active ∨ s.status = Status.paused then
            insertMap m did s.id
          else m
      | none => m)
    []

/-- `WorkSpaceDaemon.__init__`: baselines read from the OS, session map
rebuilt from the store, suppress counter zero. -/
def init_daemon (st : Store) (cnt : Nat) (ids : List String)
    (act : Option String) : Daemon :=
  { prevCount := cnt, prevIds := ids, activeId := act,
    sessionMap := load_session_map st, suppressCount := 0, lastSnap := [] }

/-- Number of sessions whose status is `active`. -/
def countActive (st : Store) : Nat :=
  (st.sessions.filter (fun s => s.status = Status.active)).length

/-- States of the system reachable from a fresh install by session
creation, startup reconciliation, poll ticks (desktop creation, removal
and switch handling) and restores. -/
inductive Reachable : Store → Daemon → Prop
  | init (cnt : Nat) (ids : List String) (act : Option String) :
      Reachable emptyStore (init_daemon emptyStore cnt ids act)
  | named {st : Store} {d : Daemon} (h : Reachable st d)
      (name : String) (did : String) :
      Reachable (on_session_named st d name did).1
        (on_session_named st d name did).2
  | startup {st : Store} {d : Daemon} (h : Reachable st d)
      (allIds : List String) (currentId : Option String)
      (allWindows : String → List Window) (deskName : String → String) :
      Reachable (scan_startup st d allIds currentId allWindows deskName).1
        (scan_startup st d allIds currentId allWindows deskName).2
  | pollStep {st : Store} {d : Daemon} (h : Reachable st d) (now : Nat)
      (cc : Nat) (ids : List String) (ca : Option String)
      (aw : String → List Window) :
      Reachable (poll st d now cc ids ca aw).1 (poll st d now cc ids ca aw).2.1
  | restore {st : Store} {d : Daemon} (h : Reachable st d) (sid : Nat)
      (newDesk : Option String) :
      Reachable (restore_session_db st sid newDesk) d

/-- One session row of the earlier architecture
(`src/db/models.py Session`), restricted to the fields its creation
logic touches. -/
structure OldSession where
  id : Option Nat
  name : String
  desktop_id : String
  status : Status
deriving DecidableEq, Repr

/-- The earlier architecture's sessions table. -/
structure OldDb where
  rows : List OldSession
  nextId : Nat
deriving Repr

/-- `Database.create_session` (earlier architecture,
`src/db/database.py`): SELECT by desktop id first; if a row exists,
return it unchanged, otherwise INSERT and assign the new row id. -/
def db_create_session (db : OldDb) (s : OldSession) : OldDb × OldSession :=
  match db.rows.find? (fun r => r.desktop_id = s.desktop_id) with
  | some r => (db, r)
  | none =>
      let s1 := { s with id := some db.nextId }
      ({ rows := db.rows ++ [s1], nextId := db.nextId + 1 }, s1)

/-- In-memory state of the earlier architecture's daemon:
the `_active` desktop → session cache and the pending-prompt set. -/
structure OldDaemon where
  active : List (String × OldSession)
  pendingPrompts : List String
deriving Repr

/-- `WorkSpaceDaemon.create_session` (earlier architecture,
`src/core/daemon.py`): discard any pending prompt for this desktop,
return the cached session if one exists, else create through the
database and cache it. -/
def old_create_session (db : OldDb) (dm : OldDaemon) (name : String)
    (did : String) : OldDb × OldDaemon × OldSession :=
  let dm1 := { dm with pendingPrompts := dm.pendingPrompts.filter (fun x => x ≠ did) }
  match dm1.active.find? (fun p => p.1 = did) with
  | some p => (db, dm1, p.2)
  | none =>
      let r := db_create_session db ⟨none, name, did, Status.active⟩
      (r.1, { dm1 with active := dm1.active ++ [(did, r.2)] }, r.2)

/-- The stats record returned by `db.get_session_stats`. -/
structure Stats where
  app_count : Nat
  apps : List String
  tab_count : Nat
  window_count : Nat
  duration : String
deriving Repr

/-- The system executables excluded from the stats app list. -/
def system_exes : List String := ["explorer.exe", "dwm.exe", "winlogon.exe"]

/-- `db.get_session_stats`: unique non-system executable names (display
list capped at 6), tab and window counts, and the bucketed duration
string. -/
def get_session_stats (st : Store) (sid : Nat) : Stats :=
  let windows := get_windows st sid
  let tabs := get_chrome_tabs st sid
  let session := get_session st sid
  let apps : List String :=
    ((windows.filter
        (fun w => w.exe_name ≠ "" ∧ pyLower w.exe_name ∉ system_exes)).map
      (fun w => w.exe_name)).dedup
  let total_secs := match session with
    | some s => s.total_seconds
    | none => 0
  let hours := total_secs / 3600
  let rem := total_secs % 3600
  let mins := rem / 60
  let duration :=
    if 0 < hours then toString hours ++ "h " ++ toString mins ++ "m"
    else if 0 < mins then toString mins ++ "m"
    else "< 1m"
  { app_count := apps.length, apps := apps.take 6, tab_count := tabs.length,
    window_count := windows.length, duration := duration }

/-- `snapshot.EXCLUDED_EXE`: the fixed denylist of shell/system process
executables. -/
def EXCLUDED_EXE : List String :=
  ["explorer.exe", "dwm.exe", "winlogon.exe", "csrss.exe",
   "svchost.exe", "lsass.exe", "services.exe", "smss.exe",
   "taskhost.exe", "conhost.exe", "searchui.exe", "shellexperiencehost.exe",
   "applicationframehost.exe", "systemsettings.exe", "workspacemanager.exe",
   "searchhost.exe", "startmenuexperiencehost.exe", "textinputhost.exe",
   "runtimebroker.exe", "sihost.exe", "taskhostw.exe"]

/-- `win32con.WS_CAPTION` (`WS_BORDER ||| WS_DLGFRAME`). -/
def WS_CAPTION : Nat := 0xC00000

/-- Python `str.strip()`: remove whitespace from both ends. -/
def pyStrip (s : String) : String :=
  String.mk
    (((s.data.dropWhile Char.isWhitespace).reverse.dropWhile
        Char.isWhitespace).reverse)

/-- `os.path.basename`: the final path component after the last `/` or
`\` separator (empty when the path ends in a separator). -/
def basename (p : String) : String :=
  String.mk
    ((p.data.reverse.takeWhile (fun c => !(c == '/' || c == '\\'))).reverse)

/-- The win32/pyvda surface `snapshot.py` reads: the global z-ordered
app-view list and the per-window OS queries.  `appDesktop` is
`str(app.desktop.id)`, `none` when the desktop of the window cannot be
determined; `procExe` is the psutil executable lookup, `none` on
process-access failure. -/
structure WinEnv where
  apps : List Nat
  isWindow : Nat → Bool
  windowText : Nat → String
  parent : Nat → Nat
  style : Nat → Nat
  appDesktop : Nat → Option String
  threadPid : Nat → Nat
  procExe : Nat → Option String

/-- `snapshot._get_proc_info`: executable path and base name for a pid,
empty strings when the process cannot be inspected. -/
structure ProcInfo where
  exe_path : String
  exe_name : String
  pid : Nat
deriving Repr

/-- `snapshot._get_proc_info`. -/
def get_proc_info (env : WinEnv) (pid : Nat) : ProcInfo :=
  match env.procExe pid with
  | some exe => ⟨exe, basename exe, pid⟩
  | none => ⟨"", "", pid⟩

/-- `snapshot._is_capturable`: the window exists, its stripped title has
length ≥ 2, it is top-level (no parent) and its style carries the
caption flag. -/
def is_capturable (env : WinEnv) (hwnd : Nat) : Bool :=
  if hwnd = 0 then false
  else if env.isWindow hwnd = false then false
  else if (pyStrip (env.windowText hwnd)).length < 2 then false
  else if env.parent hwnd ≠ 0 then false
  else if env.style hwnd &&& WS_CAPTION = 0 then false
  else true

/-- `result.setdefault(desktop_id, []).append(w)`. -/
def addTo (m : List (String × List Window)) (did : String) (w : Window) :
    List (String × List Window) :=
  if m.any (fun p => p.1 = did) then
    m.map (fun p => if p.1 = did then (p.1, p.2 ++ [w]) else p)
  else m ++ [(did, [w])]

/-- `result.get(desktop_id, [])` over the mapping the capture builds. -/
def lookupWins (m : List (String × List Window)) (did : String) :
    List Window :=
  ((m.find? (fun p => p.1 = did)).map (fun p => p.2)).getD []

/-- `snapshot.snapshot_all_desktops`: walk the global app-view list,
apply the capturability checks, attribute each surviving window to its
desktop (skipping windows whose desktop cannot be determined), drop
denylisted executables, and group the rest by desktop id.  `snap_step`
is the body of the loop for a single app view. -/
def snap_step (env : WinEnv) (acc : List (String × List Window))
    (hwnd : Nat) : List (String × List Window) :=
  if hwnd = 0 then acc
  else if env.isWindow hwnd = false then acc
  else if (pyStrip (env.windowText hwnd)).length < 2 then acc
  else if is_capturable env hwnd = false then acc
  else
    match env.appDesktop hwnd with
    | none => acc
    | some did =>
        if pyLower (get_proc_info env (env.threadPid hwnd)).exe_name ∈
            EXCLUDED_EXE then acc
        else
          addTo acc did
            ⟨hwnd, env.windowText hwnd,
             (get_proc_info env (env.threadPid hwnd)).exe_path,
             (get_proc_info env (env.threadPid hwnd)).exe_name,
             env.threadPid hwnd⟩

/-- `snapshot.snapshot_all_desktops` as the fold of `snap_step` over the
z-ordered app-view list. -/
def snapshot_all_desktops (env : WinEnv) : List (String × List Window) :=
  env.apps.foldl (snap_step env) []

/-! ### Helper lemmas -/

lemma lookupSnapTime_insertSnapTime (m : List (Nat × Nat)) (k t : Nat) :
    lookupSnapTime (insertSnapTime m k t) k = some t := by
  unfold insertSnapTime lookupSnapTime
  split
  · next h =>
    rw [List.find?_map]
    have hpred : ((fun p : Nat × Nat => decide (p.1 = k)) ∘
        fun p : Nat × Nat => if p.1 = k then (k, t) else p) =
        fun p : Nat × Nat => decide (p.1 = k) := by
      funext p
      by_cases hp : p.1 = k <;> simp [hp]
    rw [hpred]
    obtain ⟨p, hp, hpk⟩ := List.any_eq_true.mp h
    cases hq : List.find? (fun p : Nat × Nat => decide (p.1 = k)) m with
    | none =>
        rw [List.find?_eq_none] at hq
        exact absurd hpk (hq p hp)
    | some q =>
        have hqk : q.1 = k := by simpa using List.find?_some hq
        simp [hqk]
  · next h =>
    rw [List.find?_append]
    have hnone : List.find? (fun p : Nat × Nat => decide (p.1 = k)) m = none := by
      rw [List.find?_eq_none]
      intro x hx
      simp only [decide_eq_true_eq]
      intro hxk
      exact h (List.any_eq_true.mpr ⟨x, hx, by simpa using hxk⟩)
    simp [hnone, List.find?]

/-! ### C1 -/

/-- C1: for every call of the composite `saveSnapshot` operation
(`_save_snapshot_safe` over `db.save_snapshot`): if the captured window
list is empty while the session has stored windows, the store is left
untouched (the stored window set stays the prior non-empty one) and only
the last-snapshot timestamp is recorded; otherwise the session's windows
are replaced by the argument, its tabs are rewritten with the fetched
tab list, and one append-only snapshot row carrying the window and tab
counts is added. -/
theorem c1_save_snapshot_policy (st : Store) (d : Daemon) (sid : Nat)
    (ws : List Window) (now : Nat) :
    ((ws = [] ∧ get_windows st sid ≠ []) →
        (save_snapshot_safe st d sid ws now).1 = st ∧
        get_windows (save_snapshot_safe st d sid ws now).1 sid =
          get_windows st sid ∧
        lookupSnapTime (save_snapshot_safe st d sid ws now).2.1.lastSnap sid =
          some now) ∧
    (¬(ws = [] ∧ get_windows st sid ≠ []) →
        get_windows (save_snapshot_safe st d sid ws now).1 sid = ws ∧
        get_chrome_tabs (save_snapshot_safe st d sid ws now).1 sid =
          get_chrome_tabs st sid ∧
        (save_snapshot_safe st d sid ws now).1.snapshots =
          st.snapshots ++ [⟨sid, ws.length, (get_chrome_tabs st sid).length⟩] ∧
        lookupSnapTime (save_snapshot_safe st d sid ws now).2.1.lastSnap sid =
          some now) := by
  by_cases h : ws = [] ∧ get_windows st sid ≠ []
  · refine ⟨fun _ => ?_, fun hc => absurd h hc⟩
    unfold save_snapshot_safe
    rw [if_pos h]
    exact ⟨rfl, rfl, lookupSnapTime_insertSnapTime _ _ _⟩
  · refine ⟨fun hc => absurd hc h, fun _ => ?_⟩
    unfold save_snapshot_safe
    rw [if_neg h]
    refine ⟨?_, ?_, rfl, lookupSnapTime_insertSnapTime _ _ _⟩
    · unfold save_snapshot save_chrome_tabs save_windows get_windows
      simp
    · unfold save_snapshot save_chrome_tabs save_windows get_chrome_tabs
      simp

/-- A concrete session store: session 1 is active on desktop `D1` with
one stored window and one stored tab. -/
def sampleWin : Window := ⟨10, "Report", "C:\\apps\\a.exe", "a.exe", 3⟩

def sampleTab : Tab := ⟨1, "Docs", "https://docs.example"⟩

def store1 : Store :=
  { sessions := [⟨1, "Study", Status.active, some "D1", 0⟩],
    windows := fun k => if k = 1 then [sampleWin] else [],
    tabs := fun k => if k = 1 then [sampleTab] else [],
    snapshots := [], nextId := 2 }

def daemon1 : Daemon :=
  { prevCount := 1, prevIds := ["D1"], activeId := some "D1",
    sessionMap := [("D1", 1)], suppressCount := 0, lastSnap := [] }

theorem c1_save_snapshot_policy_witness :
    get_windows (save_snapshot_safe store1 daemon1 1 [] 7).1 1 =
      get_windows store1 1 ∧ get_windows store1 1 = [sampleWin] := by
  refine ⟨((c1_save_snapshot_policy store1 daemon1 1 [] 7).1
    ⟨rfl, by decide⟩).2.1, by decide⟩

/-! ### C5 -/

/-- C5 counterexample: session 1 of `store1` has a stored tab, yet
delivering an empty tab list through `receive_chrome_tabs` leaves it
with no stored tabs. -/
theorem c5_counterexample :
    get_chrome_tabs store1 1 ≠ [] ∧
    get_chrome_tabs (receive_chrome_tabs store1 1 []).1 1 = [] := by
  exact ⟨by decide, by decide⟩

/-- C5 (amended): the empty-capture protection covers window records
only.  `receive_chrome_tabs` unconditionally replaces a session's
stored tabs with the delivered list — an empty delivery erases them —
while `_save_snapshot_safe` does keep the stored windows when the
captured window list is empty. -/
theorem c5_amended_tabs_replaced (st : Store) (sid : Nat) (ts : List Tab) :
    get_chrome_tabs (receive_chrome_tabs st sid ts).1 sid = ts ∧
    (∀ d now, get_windows st sid ≠ [] →
        get_windows (save_snapshot_safe st d sid [] now).1 sid =
          get_windows st sid) := by
  constructor
  · unfold receive_chrome_tabs save_chrome_tabs get_chrome_tabs
    simp
  · intro d now h
    unfold save_snapshot_safe
    rw [if_pos ⟨rfl, h⟩]

theorem c5_amended_tabs_replaced_witness :
    get_chrome_tabs (receive_chrome_tabs store1 1 []).1 1 = [] ∧
    get_windows (save_snapshot_safe store1 daemon1 1 [] 3).1 1 =
      get_windows store1 1 := by
  exact ⟨(c5_amended_tabs_replaced store1 1 []).1,
    (c5_amended_tabs_replaced store1 1 []).2 daemon1 3 (by decide)⟩

/-! ### C6 and C10 -/

/-- C6: starting from a zero suppress counter, one
`suppress_next_new_desktop` call followed by a poll tick that observes
exactly one new desktop id yields zero `newDesktopDetected` events and a
suppress counter back at 0. -/
theorem c6_suppress_once (st : Store) (d : Daemon) (now cc : Nat)
    (ids : List String) (ca : Option String) (aw : String → List Window)
    (newDid : String) (h0 : d.suppressCount = 0) (hcc : d.prevCount < cc)
    (_hnew : ids.filter (fun i => i ∉ d.prevIds) = [newDid]) :
    (poll st (suppress_next_new_desktop d) now cc ids ca aw).2.2 = [] ∧
    (poll st (suppress_next_new_desktop d) now cc ids ca aw).2.1.suppressCount
      = 0 := by
  unfold poll suppress_next_new_desktop
  simp [hcc, h0]

theorem c6_suppress_once_witness :
    (poll store1 (suppress_next_new_desktop daemon1) 0 2 ["D1", "D2"]
        (some "D2") (fun _ => [])).2.2 = [] ∧
    (poll store1 (suppress_next_new_desktop daemon1) 0 2 ["D1", "D2"]
        (some "D2") (fun _ => [])).2.1.suppressCount = 0 := by
  exact c6_suppress_once store1 daemon1 0 2 ["D1", "D2"] (some "D2")
    (fun _ => []) "D2" rfl (by decide) (by decide)

/-- C10: in a poll tick whose desktop count increased while the suppress
counter is positive, the counter is decremented exactly once and no
`newDesktopDetected` event is emitted for any of the new desktop ids of
that tick, however many there are. -/
theorem c10_suppress_swallows_all (st : Store) (d : Daemon) (now cc : Nat)
    (ids : List String) (ca : Option String) (aw : String → List Window)
    (h : 0 < d.suppressCount) (hcc : d.prevCount < cc) :
    (poll st d now cc ids ca aw).2.2 = [] ∧
    (poll st d now cc ids ca aw).2.1.suppressCount + 1 = d.suppressCount := by
  unfold poll
  constructor
  · simp [hcc, h]
  · simp [hcc, h]
    omega

/-- Witness: one pending suppression swallows two new desktops appearing
in the same tick. -/
theorem c10_suppress_swallows_all_witness :
    (poll store1 (suppress_next_new_desktop daemon1) 0 3 ["D1", "D2", "D3"]
        (some "D3") (fun _ => [])).2.2 = [] ∧
    (poll store1 (suppress_next_new_desktop daemon1) 0 3 ["D1", "D2", "D3"]
        (some "D3") (fun _ => [])).2.1.suppressCount + 1 =
      (suppress_next_new_desktop daemon1).suppressCount := by
  exact c10_suppress_swallows_all store1 (suppress_next_new_desktop daemon1)
    0 3 ["D1", "D2", "D3"] (some "D3") (fun _ => []) (by decide) (by decide)

/-! ### C9 -/

/-- C9: `get_session_stats` buckets the duration exactly by the
session's `total_seconds` — `Nh Mm` with `N = t / 3600` and
`M = t % 3600 / 60` when `t ≥ 3600`, `Nm` with `N = t / 60` when
`60 ≤ t < 3600`, and the `< 1m` bucket when `t < 60` — and its app list
holds at most 6 distinct non-system executable names. -/
theorem c9_session_stats (st : Store) (sid : Nat) (s : Session)
    (hs : get_session st sid = some s) :
    (3600 ≤ s.total_seconds →
        (get_session_stats st sid).duration =
          toString (s.total_seconds / 3600) ++ "h " ++
            toString (s.total_seconds % 3600 / 60) ++ "m") ∧
    (60 ≤ s.total_seconds → s.total_seconds < 3600 →
        (get_session_stats st sid).duration =
          toString (s.total_seconds / 60) ++ "m") ∧
    (s.total_seconds < 60 → (get_session_stats st sid).duration = "< 1m") ∧
    (get_session_stats st sid).apps.length ≤ 6 ∧
    (get_session_stats st sid).apps.Nodup ∧
    (∀ a ∈ (get_session_stats st sid).apps,
        a ≠ "" ∧ pyLower a ∉ system_exes) := by
  have happs : (get_session_stats st sid).apps =
      (((get_windows st sid).filter
          (fun w => w.exe_name ≠ "" ∧ pyLower w.exe_name ∉ system_exes)).map
        (fun w => w.exe_name)).dedup.take 6 := by
    unfold get_session_stats
    rfl
  refine ⟨?_, ?_, ?_, ?_, ?_, ?_⟩
  · intro h
    have h1 : 0 < s.total_seconds / 3600 :=
      (Nat.div_pos_iff (by norm_num)).mpr h
    unfold get_session_stats
    rw [hs]
    simp [h1]
  · intro h60 h3600
    have h1 : s.total_seconds / 3600 = 0 := Nat.div_eq_of_lt h3600
    have h2 : s.total_seconds % 3600 = s.total_seconds := Nat.mod_eq_of_lt h3600
    have h3 : 0 < s.total_seconds / 60 :=
      (Nat.div_pos_iff (by norm_num)).mpr h60
    unfold get_session_stats
    rw [hs]
    simp [h1, h2, h3]
  · intro h
    have h1 : s.total_seconds / 3600 = 0 := Nat.div_eq_of_lt (by omega)
    have h2 : s.total_seconds % 3600 = s.total_seconds :=
      Nat.mod_eq_of_lt (by omega)
    have h3 : s.total_seconds / 60 = 0 := Nat.div_eq_of_lt h
    unfold get_session_stats
    rw [hs]
    simp [h1, h2, h3]
  · rw [happs, List.length_take]
    exact min_le_left _ _
  · rw [happs]
    exact List.Sublist.nodup (List.take_sublist _ _) (List.nodup_dedup _)
  · intro a ha
    rw [happs] at ha
    have hd := List.take_subset _ _ ha
    rw [List.mem_dedup] at hd
    obtain ⟨w, hw, rfl⟩ := List.mem_map.mp hd
    have hwf := (List.mem_filter.mp hw).2
    simpa using hwf

theorem c9_session_stats_witness :
    (get_session_stats store1 1).duration = "< 1m" ∧
    (get_session_stats store1 1).apps.length ≤ 6 := by
  have h := c9_session_stats store1 1 ⟨1, "Study", Status.active, some "D1", 0⟩
    (by decide)
  exact ⟨h.2.2.1 (by decide), h.2.2.2.1⟩

/-! ### C3 -/

/-- C3: session creation in the earlier-architecture daemon
(`WorkSpaceDaemon.create_session` over `Database.create_session`) is
idempotent: a second creation for the same desktop id returns the very
same session (hence the same session id) and inserts no duplicate row. -/
theorem c3_create_session_idempotent (db : OldDb) (dm : OldDaemon)
    (n1 n2 did : String) :
    (old_create_session (old_create_session db dm n1 did).1
        (old_create_session db dm n1 did).2.1 n2 did).2.2 =
      (old_create_session db dm n1 did).2.2 ∧
    (old_create_session (old_create_session db dm n1 did).1
        (old_create_session db dm n1 did).2.1 n2 did).1.rows =
      (old_create_session db dm n1 did).1.rows := by
  unfold old_create_session
  cases hf : List.find? (fun p : String × OldSession => p.1 = did) dm.active with
  | some p => simp [hf]
  | none => simp [hf, List.find?_append, List.find?]

/-! ### C7 -/

/-- Stored status of session `sid`. -/
def statusOf (st : Store) (sid : Nat) : Option Status :=
  (get_session st sid).map (fun s => s.status)

/-- Stored `total_seconds` of session `sid`. -/
def totalOf (st : Store) (sid : Nat) : Option Nat :=
  (get_session st sid).map (fun s => s.total_seconds)

lemma get_session_add_session_time (st : Store) (j n sid : Nat) :
    get_session (add_session_time st j n) sid =
      (get_session st sid).map
        (fun s => if s.id = j then
          { s with total_seconds := s.total_seconds + n } else s) := by
  unfold get_session add_session_time
  simp only [List.find?_map]
  have hpred : ((fun s : Session => decide (s.id = sid)) ∘
      fun s : Session => if s.id = j then
        { s with total_seconds := s.total_seconds + n } else s) =
      fun s : Session => decide (s.id = sid) := by
    funext s
    by_cases hsj : s.id = j <;> simp [hsj]
  rw [hpred]

lemma statusOf_add_session_time (st : Store) (j n sid : Nat) :
    statusOf (add_session_time st j n) sid = statusOf st sid := by
  unfold statusOf
  rw [get_session_add_session_time]
  cases get_session st sid with
  | none => rfl
  | some s => by_cases hsj : s.id = j <;> simp [hsj]

lemma totalOf_add_session_time_self (st : Store) (sid n : Nat) :
    totalOf (add_session_time st sid n) sid =
      (totalOf st sid).map (fun t => t + n) := by
  unfold totalOf
  rw [get_session_add_session_time]
  cases hg : get_session st sid with
  | none => rfl
  | some s =>
      have hid : s.id = sid := by
        unfold get_session at hg
        simpa using List.find?_some hg
      simp [hid]

lemma totalOf_add_session_time_other (st : Store) (j n sid : Nat)
    (hj : j ≠ sid) :
    totalOf (add_session_time st j n) sid = totalOf st sid := by
  unfold totalOf
  rw [get_session_add_session_time]
  cases hg : get_session st sid with
  | none => rfl
  | some s =>
      have hid : s.id = sid := by
        unfold get_session at hg
        simpa using List.find?_some hg
      simp [hid, Ne.symm hj]

lemma statusOf_tick_step (st : Store) (p : String × Nat) (sid : Nat) :
    statusOf (tick_step st p) sid = statusOf st sid := by
  unfold tick_step
  cases hg : get_session st p.2 with
  | none => rfl
  | some s =>
      by_cases hact : s.status = Status.active
      · simp [hact, statusOf_add_session_time]
      · simp [hact]

lemma statusOf_tick_fold (m : List (String × Nat)) (st : Store) (sid : Nat) :
    statusOf (m.foldl tick_step st) sid = statusOf st sid := by
  induction m generalizing st with
  | nil => rfl
  | cons p m ih => rw [List.foldl_cons, ih, statusOf_tick_step]

lemma totalOf_tick_step_other (st : Store) (p : String × Nat) (sid : Nat)
    (hp : p.2 ≠ sid) :
    totalOf (tick_step st p) sid = totalOf st sid := by
  unfold tick_step
  cases hg2 : get_session st p.2 with
  | none => rfl
  | some s2 =>
      by_cases ha2 : s2.status = Status.active
      · simp [ha2, totalOf_add_session_time_other st p.2 60 sid hp]
      · simp [ha2]

lemma totalOf_tick_fold_active (m : List (String × Nat)) (st : Store)
    (sid t : Nat) (hst : statusOf st sid = some Status.active)
    (htot : totalOf st sid = some t) :
    totalOf (m.foldl tick_step st) sid =
      some (t + 60 * m.countP (fun p => p.2 = sid)) := by
  induction m generalizing st t with
  | nil => simpa using htot
  | cons p m ih =>
      rw [List.foldl_cons]
      obtain ⟨s, hg, hsact⟩ :
          ∃ s, get_session st sid = some s ∧ s.status = Status.active := by
        unfold statusOf at hst
        cases hgs : get_session st sid with
        | none => rw [hgs] at hst; simp at hst
        | some s => rw [hgs] at hst; exact ⟨s, rfl, by simpa using hst⟩
      by_cases hp : p.2 = sid
      · have hstep : tick_step st p = add_session_time st sid 60 := by
          unfold tick_step
          rw [hp, hg]
          simp [hsact]
        have h1 : statusOf (add_session_time st sid 60) sid =
            some Status.active := by
          rw [statusOf_add_session_time]; exact hst
        have h2 : totalOf (add_session_time st sid 60) sid = some (t + 60) := by
          rw [totalOf_add_session_time_self, htot]; rfl
        rw [hstep, ih _ _ h1 h2, List.countP_cons]
        simp [hp]
        ring
      · have hs' : statusOf (tick_step st p) sid = some Status.active := by
          rw [statusOf_tick_step]; exact hst
        have ht' : totalOf (tick_step st p) sid = some t := by
          rw [totalOf_tick_step_other st p sid hp]; exact htot
        rw [ih _ _ hs' ht', List.countP_cons]
        simp [hp]

lemma totalOf_tick_fold_inactive (m : List (String × Nat)) (st : Store)
    (sid : Nat) (stt : Status) (hstt : stt ≠ Status.active)
    (hst : statusOf st sid = some stt) :
    totalOf (m.foldl tick_step st) sid = totalOf st sid := by
  induction m generalizing st with
  | nil => rfl
  | cons p m ih =>
      rw [List.foldl_cons]
      have ht' : totalOf (tick_step st p) sid = totalOf st sid := by
        unfold tick_step
        cases hg2 : get_session st p.2 with
        | none => rfl
        | some s2 =>
            by_cases ha2 : s2.status = Status.active
            · by_cases hp : p.2 = sid
              · exfalso
                rw [hp] at hg2
                unfold statusOf at hst
                rw [hg2] at hst
                simp at hst
                exact hstt (hst ▸ ha2)
              · simp [ha2, totalOf_add_session_time_other st p.2 60 sid hp]
            · simp [ha2]
      rw [ih _ (by rw [statusOf_tick_step]; exact hst)]
      exact ht'

/-- C7: a session's `total_seconds` advances only while it is `active`:
each 60-second tick adds exactly 60 to a tracked session whose status is
`active` and 0 to one whose status is not, so three consecutive ticks
add exactly 180 to a session that stays active and 0 to a paused or
idle one. -/
theorem c7_time_accrual (st : Store) (d : Daemon) (sid t : Nat)
    (hcount : d.sessionMap.countP (fun p => p.2 = sid) = 1)
    (htot : totalOf st sid = some t) :
    (statusOf st sid = some Status.active →
        totalOf (tick_time st d) sid = some (t + 60) ∧
        totalOf (tick_time (tick_time (tick_time st d) d) d) sid =
          some (t + 180)) ∧
    (∀ stt, statusOf st sid = some stt → stt ≠ Status.active →
        totalOf (tick_time st d) sid = some t ∧
        totalOf (tick_time (tick_time (tick_time st d) d) d) sid = some t) := by
  constructor
  · intro hact
    have h1 : totalOf (tick_time st d) sid =
        some (t + 60 * d.sessionMap.countP (fun p => p.2 = sid)) :=
      totalOf_tick_fold_active d.sessionMap st sid t hact htot
    rw [hcount] at h1
    have h1' : totalOf (tick_time st d) sid = some (t + 60) := by
      rw [h1]
    have hs1 : statusOf (tick_time st d) sid = some Status.active := by
      have := statusOf_tick_fold d.sessionMap st sid
      rw [show statusOf (tick_time st d) sid =
        statusOf (d.sessionMap.foldl tick_step st) sid from rfl, this]
      exact hact
    have h2 : totalOf (tick_time (tick_time st d) d) sid =
        some (t + 60 + 60 * d.sessionMap.countP (fun p => p.2 = sid)) :=
      totalOf_tick_fold_active d.sessionMap (tick_time st d) sid (t + 60)
        hs1 h1'
    rw [hcount] at h2
    have h2' : totalOf (tick_time (tick_time st d) d) sid = some (t + 120) := by
      rw [h2]
    have hs2 : statusOf (tick_time (tick_time st d) d) sid =
        some Status.active := by
      have := statusOf_tick_fold d.sessionMap (tick_time st d) sid
      rw [show statusOf (tick_time (tick_time st d) d) sid =
        statusOf (d.sessionMap.foldl tick_step (tick_time st d)) sid from rfl,
        this]
      exact hs1
    have h3 : totalOf (tick_time (tick_time (tick_time st d) d) d) sid =
        some (t + 120 + 60 * d.sessionMap.countP (fun p => p.2 = sid)) :=
      totalOf_tick_fold_active d.sessionMap (tick_time (tick_time st d) d)
        sid (t + 120) hs2 h2'
    rw [hcount] at h3
    have h3' : totalOf (tick_time (tick_time (tick_time st d) d) d) sid =
        some (t + 180) := by
      rw [h3]
    exact ⟨h1', h3'⟩
  · intro stt hst hstt
    have h1 : totalOf (tick_time st d) sid = totalOf st sid :=
      totalOf_tick_fold_inactive d.sessionMap st sid stt hstt hst
    have hs1 : statusOf (tick_time st d) sid = some stt := by
      have := statusOf_tick_fold d.sessionMap st sid
      rw [show statusOf (tick_time st d) sid =
        statusOf (d.sessionMap.foldl tick_step st) sid from rfl, this]
      exact hst
    have h2 : totalOf (tick_time (tick_time st d) d) sid =
        totalOf (tick_time st d) sid :=
      totalOf_tick_fold_inactive d.sessionMap (tick_time st d) sid stt
        hstt hs1
    have hs2 : statusOf (tick_time (tick_time st d) d) sid = some stt := by
      have := statusOf_tick_fold d.sessionMap (tick_time st d) sid
      rw [show statusOf (tick_time (tick_time st d) d) sid =
        statusOf (d.sessionMap.foldl tick_step (tick_time st d)) sid from rfl,
        this]
      exact hs1
    have h3 : totalOf (tick_time (tick_time (tick_time st d) d) d) sid =
        totalOf (tick_time (tick_time st d) d) sid :=
      totalOf_tick_fold_inactive d.sessionMap (tick_time (tick_time st d) d)
        sid stt hstt hs2
    refine ⟨h1.trans htot, ?_⟩
    rw [h3, h2, h1]
    exact htot

/-- `store1` with its session paused instead of active. -/
def store2 : Store :=
  { store1 with sessions := [⟨1, "Study", Status.paused, some "D1", 0⟩] }

theorem c7_time_accrual_witness :
    totalOf (tick_time store1 daemon1) 1 = some 60 ∧
    totalOf (tick_time (tick_time (tick_time store1 daemon1) daemon1)
      daemon1) 1 = some 180 ∧
    totalOf (tick_time store2 daemon1) 1 = some 0 := by
  have ha := (c7_time_accrual store1 daemon1 1 0 (by decide) (by decide)).1
    (by decide)
  have hp := (c7_time_accrual store2 daemon1 1 0 (by decide) (by decide)).2
    Status.paused (by decide) (by decide)
  exact ⟨by simpa using ha.1, by simpa using ha.2, hp.1⟩

/-! ### C4 -/

lemma get_windows_save_snapshot (st : Store) (sid : Nat) (ws : List Window)
    (ts : List Tab) :
    get_windows (save_snapshot st sid ws ts) sid = ws := by
  unfold save_snapshot save_chrome_tabs save_windows get_windows
  simp

lemma get_windows_update_session_status (st : Store) (sid' : Nat)
    (stt : Status) (sid : Nat) :
    get_windows (update_session_status st sid' stt) sid =
      get_windows st sid := rfl

lemma mem_update_session_status (st : Store) (sid : Nat) (stt : Status) :
    ∀ s ∈ (update_session_status st sid stt).sessions,
      s.id = sid → s.status = stt := by
  intro s hs hid
  unfold update_session_status at hs
  simp only [List.mem_map] at hs
  obtain ⟨x, hx, rfl⟩ := hs
  by_cases hxid : x.id = sid
  · simp [hxid]
  · rw [if_neg hxid] at hid ⊢
    exact absurd hid hxid

lemma salvage_eq_matched (st : Store) (sid : Nat)
    (aw : String → List Window) (ca : Option String)
    (hprev : get_windows st sid ≠ [])
    (hmt : (getOrEmpty aw ca).filter
        (fun w => pyLower w.exe_name ∈
          ((get_windows st sid).filter (fun w => w.exe_name ≠ "")).map
            (fun w => pyLower w.exe_name)) ≠ []) :
    get_windows (salvage_on_close st sid aw ca) sid =
      (getOrEmpty aw ca).filter
        (fun w => pyLower w.exe_name ∈
          ((get_windows st sid).filter (fun w => w.exe_name ≠ "")).map
            (fun w => pyLower w.exe_name)) := by
  unfold salvage_on_close
  rw [if_neg hprev]
  by_cases hk : ((get_windows st sid).filter (fun w => w.exe_name ≠ "")).map
      (fun w => pyLower w.exe_name) = []
  · exfalso
    apply hmt
    rw [hk]
    simp
  · rw [if_neg hk, if_neg hmt, get_windows_save_snapshot]

lemma salvage_unchanged (st : Store) (sid : Nat)
    (aw : String → List Window) (ca : Option String)
    (h : get_windows st sid = [] ∨
      (getOrEmpty aw ca).filter
        (fun w => pyLower w.exe_name ∈
          ((get_windows st sid).filter (fun w => w.exe_name ≠ "")).map
            (fun w => pyLower w.exe_name)) = []) :
    get_windows (salvage_on_close st sid aw ca) sid = get_windows st sid := by
  unfold salvage_on_close
  by_cases hprev : get_windows st sid = []
  · rw [if_pos hprev]
  · rw [if_neg hprev]
    rcases h with h | h
    · exact absurd h hprev
    · by_cases hk : ((get_windows st sid).filter
          (fun w => w.exe_name ≠ "")).map (fun w => pyLower w.exe_name) = []
      · rw [if_pos hk]
      · rw [if_neg hk, if_pos h]

/-- C4: when the desktop bound to session `sid` is removed in a poll
tick, a fresh global capture is matched against the executable names of
the session's stored windows: the windows of the newly active desktop
whose executable base name matches case-insensitively become the new
stored window set; if none match (or the session had no stored windows)
the stored set is unchanged; and in either case the session is marked
idle. -/
theorem c4_desktop_removal_salvage (st : Store) (d : Daemon)
    (now cc : Nat) (ids : List String) (ca : Option String)
    (aw : String → List Window) (did : String) (sid : Nat)
    (hcc : cc < d.prevCount)
    (hrem : d.prevIds.filter (fun i => i ∉ ids) = [did])
    (hmap : lookupMap d.sessionMap did = some sid) :
    (poll st d now cc ids ca aw).1 =
      update_session_status (salvage_on_close st sid aw ca) sid
        Status.idle ∧
    (get_windows st sid ≠ [] →
      (getOrEmpty aw ca).filter
        (fun w => pyLower w.exe_name ∈
          ((get_windows st sid).filter (fun w => w.exe_name ≠ "")).map
            (fun w => pyLower w.exe_name)) ≠ [] →
      get_windows (poll st d now cc ids ca aw).1 sid =
        (getOrEmpty aw ca).filter
          (fun w => pyLower w.exe_name ∈
            ((get_windows st sid).filter (fun w => w.exe_name ≠ "")).map
              (fun w => pyLower w.exe_name))) ∧
    (get_windows st sid = [] ∨
      (getOrEmpty aw ca).filter
        (fun w => pyLower w.exe_name ∈
          ((get_windows st sid).filter (fun w => w.exe_name ≠ "")).map
            (fun w => pyLower w.exe_name)) = [] →
      get_windows (poll st d now cc ids ca aw).1 sid = get_windows st sid) ∧
    (∀ s ∈ (poll st d now cc ids ca aw).1.sessions,
      s.id = sid → s.status = Status.idle) := by
  have hn : ¬ d.prevCount < cc := by omega
  have hpoll : (poll st d now cc ids ca aw).1 =
      update_session_status (salvage_on_close st sid aw ca) sid
        Status.idle := by
    unfold poll
    simp only [if_neg hn, if_pos hcc, hrem, List.foldl_cons, List.foldl_nil,
      hmap]
  refine ⟨hpoll, ?_, ?_, ?_⟩
  · intro hprev hmt
    rw [hpoll, get_windows_update_session_status,
      salvage_eq_matched st sid aw ca hprev hmt]
  · intro h
    rw [hpoll, get_windows_update_session_status,
      salvage_unchanged st sid aw ca h]
  · rw [hpoll]
    exact mem_update_session_status _ _ _

/-- `daemon1` one tick later, now aware of two desktops. -/
def daemon2 : Daemon :=
  { prevCount := 2, prevIds := ["D1", "D2"], activeId := some "D1",
    sessionMap := [("D1", 1)], suppressCount := 0, lastSnap := [] }

/-- A window that migrated to desktop `D2`, same executable as
`sampleWin` up to case. -/
def migratedWin : Window := ⟨11, "Report - Word", "C:\\apps\\A.EXE", "A.EXE", 4⟩

theorem c4_desktop_removal_salvage_witness :
    get_windows (poll store1 daemon2 0 1 ["D2"] (some "D2")
      (fun c => if c = "D2" then [migratedWin] else [])).1 1 =
      [migratedWin] := by
  have h := c4_desktop_removal_salvage store1 daemon2 0 1 ["D2"] (some "D2")
    (fun c => if c = "D2" then [migratedWin] else []) "D1" 1
    (by decide) (by decide) (by decide)
  have hm := h.2.1 (by decide) (by decide)
  rw [hm]
  decide

/-! ### C8 -/

lemma length_pyStrip_le (s : String) : (pyStrip s).length ≤ s.length := by
  unfold pyStrip
  show (String.mk _).length ≤ s.length
  have h1 : ∀ (p : Char → Bool) (l : List Char),
      (l.dropWhile p).length ≤ l.length :=
    fun p l => (List.dropWhile_sublist p).length_le
  calc (((s.data.dropWhile Char.isWhitespace).reverse.dropWhile
          Char.isWhitespace).reverse).length
      = ((s.data.dropWhile Char.isWhitespace).reverse.dropWhile
          Char.isWhitespace).length := by
        rw [List.length_reverse]
    _ ≤ (s.data.dropWhile Char.isWhitespace).reverse.length := h1 _ _
    _ = (s.data.dropWhile Char.isWhitespace).length := by
        rw [List.length_reverse]
    _ ≤ s.data.length := h1 _ _

lemma lookupWins_nil (did : String) : lookupWins [] did = [] := rfl

lemma lookupWins_addTo (m : List (String × List Window)) (d0 : String)
    (w0 : Window) (did : String) :
    lookupWins (addTo m d0 w0) did =
      if did = d0 then lookupWins m did ++ [w0] else lookupWins m did := by
  unfold addTo lookupWins
  split
  · next hany =>
      have hpred : ((fun p : String × List Window => decide (p.1 = did)) ∘
          fun p : String × List Window =>
            if p.1 = d0 then (p.1, p.2 ++ [w0]) else p) =
          fun p : String × List Window => decide (p.1 = did) := by
        funext p
        by_cases hp : p.1 = d0 <;> simp [hp]
      rw [List.find?_map, hpred]
      by_cases hdid : did = d0
      · subst hdid
        obtain ⟨q, hq, hqk⟩ := List.any_eq_true.mp hany
        cases hf : List.find?
            (fun p : String × List Window => decide (p.1 = did)) m with
        | none =>
            rw [List.find?_eq_none] at hf
            exact absurd hqk (hf q hq)
        | some q' =>
            have hq' : q'.1 = did := by simpa using List.find?_some hf
            simp [hq']
      · cases hf : List.find?
            (fun p : String × List Window => decide (p.1 = did)) m with
        | none => simp [hdid]
        | some q' =>
            have hq' : q'.1 = did := by simpa using List.find?_some hf
            have hne : ¬ q'.1 = d0 := by rw [hq']; exact hdid
            simp [hdid, hne]
  · next hany =>
      rw [List.find?_append]
      by_cases hdid : did = d0
      · subst hdid
        have hf : List.find?
            (fun p : String × List Window => decide (p.1 = did)) m = none := by
          rw [List.find?_eq_none]
          intro x hx
          simp only [decide_eq_true_eq]
          intro hxk
          exact hany (List.any_eq_true.mpr ⟨x, hx, by simpa using hxk⟩)
        simp [hf, List.find?]
      · have h2 : List.find?
            (fun p : String × List Window => decide (p.1 = did))
            [(d0, [w0])] = none := by
          simp [List.find?, Ne.symm hdid]
        simp [h2, hdid, Option.or_none]

lemma is_capturable_spec (env : WinEnv) (hwnd : Nat)
    (h : is_capturable env hwnd = true) :
    hwnd ≠ 0 ∧ env.isWindow hwnd = true ∧
    2 ≤ (pyStrip (env.windowText hwnd)).length ∧
    env.parent hwnd = 0 ∧ env.style hwnd &&& WS_CAPTION ≠ 0 := by
  unfold is_capturable at h
  by_cases h0 : hwnd = 0
  · rw [if_pos h0] at h
    exact absurd h (by simp)
  rw [if_neg h0] at h
  by_cases h1 : env.isWindow hwnd = false
  · rw [if_pos h1] at h
    simp at h
  rw [if_neg h1] at h
  by_cases h2 : (pyStrip (env.windowText hwnd)).length < 2
  · rw [if_pos h2] at h
    simp at h
  rw [if_neg h2] at h
  by_cases h3 : env.parent hwnd ≠ 0
  · rw [if_pos h3] at h
    simp at h
  rw [if_neg h3] at h
  by_cases h4 : env.style hwnd &&& WS_CAPTION = 0
  · rw [if_pos h4] at h
    simp at h
  refine ⟨h0, ?_, by omega, by simpa using h3, h4⟩
  cases hb : env.isWindow hwnd
  · exact absurd hb h1
  · rfl

/-- The property guaranteed of every entry the capture stores: the five
capturability rules hold and the entry sits under its determined
desktop. -/
def capturableEntry (env : WinEnv) (did : String) (w : Window) : Prop :=
  w.hwnd ≠ 0 ∧ env.isWindow w.hwnd = true ∧
  2 ≤ (pyStrip (env.windowText w.hwnd)).length ∧
  2 ≤ (env.windowText w.hwnd).length ∧
  env.parent w.hwnd = 0 ∧
  env.style w.hwnd &&& WS_CAPTION ≠ 0 ∧
  pyLower w.exe_name ∉ EXCLUDED_EXE ∧
  env.appDesktop w.hwnd = some did

lemma snap_step_invariant (env : WinEnv)
    (acc : List (String × List Window)) (hwnd : Nat)
    (hacc : ∀ did w, w ∈ lookupWins acc did → capturableEntry env did w) :
    ∀ did w, w ∈ lookupWins (snap_step env acc hwnd) did →
      capturableEntry env did w := by
  intro did w hw
  unfold snap_step at hw
  by_cases h0 : hwnd = 0
  · rw [if_pos h0] at hw
    exact hacc did w hw
  rw [if_neg h0] at hw
  by_cases h1 : env.isWindow hwnd = false
  · rw [if_pos h1] at hw
    exact hacc did w hw
  rw [if_neg h1] at hw
  by_cases h2 : (pyStrip (env.windowText hwnd)).length < 2
  · rw [if_pos h2] at hw
    exact hacc did w hw
  rw [if_neg h2] at hw
  by_cases h3 : is_capturable env hwnd = false
  · rw [if_pos h3] at hw
    exact hacc did w hw
  rw [if_neg h3] at hw
  cases hdesk : env.appDesktop hwnd with
  | none =>
      rw [hdesk] at hw
      exact hacc did w hw
  | some did0 =>
      simp only [hdesk] at hw
      by_cases h4 : pyLower (get_proc_info env (env.threadPid hwnd)).exe_name ∈
          EXCLUDED_EXE
      · rw [if_pos h4] at hw
        exact hacc did w hw
      rw [if_neg h4, lookupWins_addTo] at hw
      by_cases hd : did = did0
      · rw [if_pos hd] at hw
        rcases List.mem_append.mp hw with hw | hw
        · exact hacc did w hw
        · have hweq : w = ⟨hwnd, env.windowText hwnd,
              (get_proc_info env (env.threadPid hwnd)).exe_path,
              (get_proc_info env (env.threadPid hwnd)).exe_name,
              env.threadPid hwnd⟩ := by
            simpa using hw
          subst hweq
          have hcap : is_capturable env hwnd = true := by
            cases hb : is_capturable env hwnd
            · exact absurd hb h3
            · rfl
          have hc := is_capturable_spec env hwnd hcap
          refine ⟨hc.1, hc.2.1, hc.2.2.1,
            le_trans hc.2.2.1 (length_pyStrip_le _), hc.2.2.2.1,
            hc.2.2.2.2, h4, ?_⟩
          rw [hd]
          exact hdesk
      · rw [if_neg hd] at hw
        exact hacc did w hw

lemma snapshot_fold_invariant (env : WinEnv) (l : List Nat)
    (acc : List (String × List Window))
    (hacc : ∀ did w, w ∈ lookupWins acc did → capturableEntry env did w) :
    ∀ did w, w ∈ lookupWins (l.foldl (snap_step env) acc) did →
      capturableEntry env did w := by
  induction l generalizing acc with
  | nil => exact hacc
  | cons hd tl ih =>
      rw [List.foldl_cons]
      exact ih (snap_step env acc hd) (snap_step_invariant env acc hd hacc)

/-- C8: every window stored in the mapping returned by
`snapshot_all_desktops` satisfies all five capturability rules — it
still exists, its (stripped) title has length ≥ 2 (so the title text
has length ≥ 2), it has no parent window, its style carries the
caption flag, and its lowercased executable base name is not in the
denylist — and it is recorded under the desktop id the OS reported for
it, so a window whose desktop cannot be determined
(`appDesktop = none`) never appears in the mapping. -/
theorem c8_capture_filter_sound (env : WinEnv) (did : String) (w : Window)
    (hw : w ∈ lookupWins (snapshot_all_desktops env) did) :
    w.hwnd ≠ 0 ∧ env.isWindow w.hwnd = true ∧
    2 ≤ (pyStrip (env.windowText w.hwnd)).length ∧
    2 ≤ (env.windowText w.hwnd).length ∧
    env.parent w.hwnd = 0 ∧
    env.style w.hwnd &&& WS_CAPTION ≠ 0 ∧
    pyLower w.exe_name ∉ EXCLUDED_EXE ∧
    env.appDesktop w.hwnd = some did := by
  have h := snapshot_fold_invariant env env.apps []
    (fun did w hw => absurd hw (by simp [lookupWins_nil])) did w
  exact h hw

/-- A one-window OS environment for exercising the capture. -/
def env0 : WinEnv :=
  { apps := [5], isWindow := fun _ => true,
    windowText := fun _ => "hello", parent := fun _ => 0,
    style := fun _ => 0xC00000, appDesktop := fun _ => some "D",
    threadPid := fun _ => 7, procExe := fun _ => some "C:\\apps\\foo.exe" }

theorem c8_capture_filter_sound_witness :
    (⟨5, "hello", "C:\\apps\\foo.exe", "foo.exe", 7⟩ : Window) ∈
      lookupWins (snapshot_all_desktops env0) "D" ∧
    env0.appDesktop 5 = some "D" ∧
    2 ≤ (env0.windowText 5).length := by
  have hmem : (⟨5, "hello", "C:\\apps\\foo.exe", "foo.exe", 7⟩ : Window) ∈
      lookupWins (snapshot_all_desktops env0) "D" := by decide
  have h := c8_capture_filter_sound env0 "D" _ hmem
  exact ⟨hmem, h.2.2.2.2.2.2.2, h.2.2.2.1⟩

/-! ### C2 -/

lemma length_le_one_of_nodup_all_eq {α : Type} (l : List α) (k : α)
    (hn : l.Nodup) (h : ∀ x ∈ l, x = k) : l.length ≤ 1 := by
  rcases l with _ | ⟨a, _ | ⟨b, t⟩⟩
  · simp
  · simp
  · exfalso
    have ha := h a (by simp)
    have hb := h b (by simp)
    rw [List.nodup_cons] at hn
    subst ha
    exact hn.1 (by rw [hb]; exact List.mem_cons_self _ _)

lemma filter_active_eq_nil (l : List Session)
    (h : ∀ s ∈ l, s.status ≠ Status.active) :
    l.filter (fun s => s.status = Status.active) = [] := by
  rw [List.filter_eq_nil_iff]
  intro s hs
  simpa using h s hs

lemma countActive_le_one_of_unique (l : List Session) (k : Nat)
    (hn : (l.map Session.id).Nodup)
    (h : ∀ s ∈ l, s.status = Status.active → s.id = k) :
    (l.filter (fun s => s.status = Status.active)).length ≤ 1 := by
  have hsub : ((l.filter (fun s => s.status = Status.active)).map
      Session.id).Nodup :=
    (List.Sublist.map Session.id (List.filter_sublist l)).nodup hn
  have hall : ∀ x ∈ (l.filter (fun s => s.status = Status.active)).map
      Session.id, x = k := by
    intro x hx
    obtain ⟨s, hs, rfl⟩ := List.mem_map.mp hx
    have hm := List.mem_filter.mp hs
    exact h s hm.1 (by simpa using hm.2)
  have := length_le_one_of_nodup_all_eq _ k hsub hall
  simpa using this

lemma countActive_le_one_opt (l : List Session) (o : Option Nat)
    (hn : (l.map Session.id).Nodup)
    (h : ∀ s ∈ l, s.status = Status.active → o = some s.id) :
    (l.filter (fun s => s.status = Status.active)).length ≤ 1 := by
  cases o with
  | none =>
      rw [filter_active_eq_nil l (fun s hs hact => by
        have := h s hs hact
        simp at this)]
      simp
  | some k =>
      exact countActive_le_one_of_unique l k hn
        (fun s hs hact => (Option.some.inj (h s hs hact)).symm)

lemma pause_no_active (l : List Session) (k : Nat)
    (h : ∀ s ∈ l, s.status = Status.active → s.id = k) :
    ∀ s ∈ l.map (fun s => if s.id = k then
        { s with status := Status.paused } else s),
      s.status ≠ Status.active := by
  intro s hs
  simp only [List.mem_map] at hs
  obtain ⟨x, hx, rfl⟩ := hs
  by_cases hxk : x.id = k
  · simp [hxk]
  · rw [if_neg hxk]
    intro hact
    exact hxk (h x hx hact)

lemma activate_unique (l : List Session) (k : Nat)
    (h : ∀ s ∈ l, s.status ≠ Status.active) :
    ∀ s ∈ l.map (fun s => if s.id = k then
        { s with status := Status.active } else s),
      s.status = Status.active → s.id = k := by
  intro s hs hact
  simp only [List.mem_map] at hs
  obtain ⟨x, hx, rfl⟩ := hs
  by_cases hxk : x.id = k
  · simp [hxk]
  · rw [if_neg hxk] at hact ⊢
    exact absurd hact (h x hx)

lemma ids_map_status (l : List Session) (k : Nat) (stt : Status) :
    (l.map (fun s => if s.id = k then { s with status := stt } else s)).map
      Session.id = l.map Session.id := by
  rw [List.map_map]
  congr 1
  funext s
  by_cases hxk : s.id = k <;> simp [hxk]

lemma sessions_do_snapshot_for (st : Store) (d : Daemon) (sid : Nat)
    (did : String) (aw : String → List Window) (now : Nat) :
    (do_snapshot_for st d sid did aw now).1.sessions = st.sessions := by
  unfold do_snapshot_for save_snapshot_safe save_snapshot save_chrome_tabs
    save_windows
  split <;> rfl

/-- C2 counterexample state: from a fresh install, the user names two
new desktops in a row (`_on_session_named` twice). -/
def twoCreateState : Store × Daemon :=
  on_session_named
    (on_session_named emptyStore (init_daemon emptyStore 1 ["D0"] (some "D0"))
      "Thesis" "D1").1
    (on_session_named emptyStore (init_daemon emptyStore 1 ["D0"] (some "D0"))
      "Thesis" "D1").2
    "Email" "D2"

/-- C2 counterexample: a reachable state — two session creations — in
which two sessions are simultaneously `active`, so the number of active
sessions is not 0 or 1 at every reachable state. -/
theorem c2_counterexample :
    Reachable twoCreateState.1 twoCreateState.2 ∧
    countActive twoCreateState.1 = 2 := by
  constructor
  · exact Reachable.named
      (Reachable.named (Reachable.init 1 ["D0"] (some "D0")) "Thesis" "D1")
      "Email" "D2"
  · decide

/-- C2 (amended): the at-most-one-active bound is not an invariant of
all reachable states — session creation activates the new session
without deactivating any other (see the counterexample), as does
restore — but the desktop-switch handling step of the poll does
preserve it: when the desktop count is unchanged, session ids are
distinct, and every active session is the one mapped from the
previously active desktop, the state after the poll tick has at most
one active session. -/
theorem c2_amended_switch_preserves (st : Store) (d : Daemon)
    (now cc : Nat) (ids : List String) (ca : Option String)
    (aw : String → List Window)
    (hcc : cc = d.prevCount)
    (hnodup : (st.sessions.map Session.id).Nodup)
    (hact : ∀ s ∈ st.sessions, s.status = Status.active →
        d.activeId.bind (lookupMap d.sessionMap) = some s.id) :
    countActive (poll st d now cc ids ca aw).1 ≤ 1 := by
  subst hcc
  have hbase : countActive st ≤ 1 :=
    countActive_le_one_opt st.sessions (d.activeId.bind (lookupMap d.sessionMap))
      hnodup hact
  cases ca with
  | none =>
      simpa [poll, lt_self_iff_false, countActive] using hbase
  | some c =>
      by_cases hc : some c ≠ d.activeId
      · cases hai : d.activeId with
        | none =>
            rw [hai] at hc
            have hnone : ∀ s ∈ st.sessions, s.status ≠ Status.active := by
              intro s hs hact'
              have := hact s hs hact'
              rw [hai] at this
              simp at this
            cases hmlc : lookupMap d.sessionMap c with
            | none =>
                simp only [poll, lt_self_iff_false, if_false, hai, hmlc,
                  if_pos hc, countActive]
                rw [filter_active_eq_nil st.sessions hnone]
                simp
            | some newSid =>
                simp only [poll, lt_self_iff_false, if_false, hai, hmlc,
                  if_pos hc, countActive, update_session_status]
                exact countActive_le_one_of_unique _ newSid
                  (by rw [ids_map_status]; exact hnodup)
                  (activate_unique st.sessions newSid hnone)
        | some oldId =>
            rw [hai] at hc
            cases hml : lookupMap d.sessionMap oldId with
            | none =>
                have hnone : ∀ s ∈ st.sessions, s.status ≠ Status.active := by
                  intro s hs hact'
                  have := hact s hs hact'
                  rw [hai] at this
                  simp [hml] at this
                cases hmlc : lookupMap d.sessionMap c with
                | none =>
                    simp only [poll, lt_self_iff_false, if_false, hai, hml,
                      hmlc, if_pos hc, countActive]
                    rw [filter_active_eq_nil st.sessions hnone]
                    simp
                | some newSid =>
                    simp only [poll, lt_self_iff_false, if_false, hai, hml,
                      hmlc, if_pos hc, countActive, update_session_status]
                    exact countActive_le_one_of_unique _ newSid
                      (by rw [ids_map_status]; exact hnodup)
                      (activate_unique st.sessions newSid hnone)
            | some oldSid =>
                have hall : ∀ s ∈ st.sessions,
                    s.status = Status.active → s.id = oldSid := by
                  intro s hs hact'
                  have := hact s hs hact'
                  rw [hai] at this
                  simp [hml] at this
                  omega
                have hsess := sessions_do_snapshot_for st d oldSid oldId aw now
                have hallX : ∀ s ∈ (do_snapshot_for st d oldSid oldId aw
                    now).1.sessions, s.status = Status.active → s.id = oldSid := by
                  rw [hsess]
                  exact hall
                have hnoneP : ∀ s ∈ ((do_snapshot_for st d oldSid oldId aw
                    now).1.sessions.map (fun s => if s.id = oldSid then
                      { s with status := Status.paused } else s)),
                    s.status ≠ Status.active :=
                  pause_no_active _ oldSid hallX
                cases hmlc : lookupMap d.sessionMap c with
                | none =>
                    simp only [poll, lt_self_iff_false, if_false, hai, hml,
                      hmlc, if_pos hc, countActive, update_session_status]
                    rw [filter_active_eq_nil _ hnoneP]
                    simp
                | some newSid =>
                    simp only [poll, lt_self_iff_false, if_false, hai, hml,
                      hmlc, if_pos hc, countActive, update_session_status]
                    refine countActive_le_one_of_unique _ newSid ?_ ?_
                    · rw [ids_map_status, ids_map_status, hsess]
                      exact hnodup
                    · exact activate_unique _ newSid hnoneP
      · simpa [poll, lt_self_iff_false, if_neg hc, countActive] using hbase

theorem c2_amended_switch_preserves_witness :
    countActive (poll store1 daemon1 0 1 ["D1"] (some "D2")
      (fun _ => [])).1 ≤ 1 :=
  c2_amended_switch_preserves store1 daemon1 0 1 ["D1"] (some "D2")
    (fun _ => []) rfl (by decide) (by decide)

end WSM
